import Mathlib

/-!
Verification of the webterm session lifecycle and I/O relay engine.

This file shallowly embeds the Go source of the webterm repository:
the session data model (internal/types/session.go), the session manager
(internal/terminal/session.go), the pipe manager and PTY factory
(terminal package), the session runner retry envelope, and the
WebSocket hub (internal/websocket).  Pointers (`*types.Session`) are
modelled by addresses into an explicit heap; Go maps are modelled by
association lists; channels and file handles that can be closed are
modelled by explicit closed-state flags, with closing an already closed
channel reported as a panic, as in Go.
-/

/-- Session lifecycle status, from internal/types/session.go. -/
inductive SessionStatus
  | starting
  | running
  | stopping
  | stopped
  | error
deriving DecidableEq, Repr

/-- The string form of a status (SessionStatus is a string type in the source). -/
def statusString : SessionStatus → String
  | SessionStatus.starting => "starting"
  | SessionStatus.running => "running"
  | SessionStatus.stopping => "stopping"
  | SessionStatus.stopped => "stopped"
  | SessionStatus.error => "error"

/-- A terminal session, from internal/types/session.go.  The Go struct's
`PTY *os.File` and `Process *exec.Cmd` pointers are modelled as optional
handle identifiers (`none` is Go's nil); `ErrorMessage` is a Go string whose
empty value means "no error", exactly as in the source.  The wall-clock
timestamp fields (`CreatedAt`, `LastActiveAt`) are omitted: no claim here
depends on real time. -/
structure Session where
  id : String
  status : SessionStatus
  shell : String
  command : List String
  workingDir : String
  inputPipe : String
  outputFile : String
  pty : Option Nat
  process : Option Nat
  errorMessage : String
deriving DecidableEq, Repr

/-- Session.IsActive from internal/types/session.go. -/
def Session.isActive (s : Session) : Bool :=
  s.status == SessionStatus.starting || s.status == SessionStatus.running

/-- Session.CanTerminate from internal/types/session.go. -/
def Session.canTerminate (s : Session) : Bool :=
  s.status == SessionStatus.starting || s.status == SessionStatus.running

/-- The session invariant stated by the spec: handles are non-null exactly in
the starting/running states, null in the stopped/error states, and a non-null
error message forces status `error`. -/
def sessionInvariantCheck (s : Session) : Bool :=
  (!(s.status == SessionStatus.starting || s.status == SessionStatus.running)
      || (s.pty.isSome && s.process.isSome)) &&
  (!(s.status == SessionStatus.stopped || s.status == SessionStatus.error)
      || (s.pty.isNone && s.process.isNone)) &&
  (s.errorMessage == "" || s.status == SessionStatus.error)

def sessionInvariant (s : Session) : Prop := sessionInvariantCheck s = true

instance (s : Session) : Decidable (sessionInvariant s) :=
  inferInstanceAs (Decidable (sessionInvariantCheck s = true))

/-- SessionRunner.monitorProcess from internal/terminal/session.go
(lines 204-216): after Process.Wait returns, the session is marked
stopped, or error (recording the message) when Wait reported a failure.
The PTY and Process fields are not touched by the monitor. -/
def monitorProcessUpdate (waitErr : Option String) (s : Session) : Session :=
  match waitErr with
  | none => { s with status := SessionStatus.stopped }
  | some e => { s with status := SessionStatus.error, errorMessage := e }

/-- SessionRunner.handleErrors from the enhanced runner: each error drained
from the runner's error channel marks the session `error` with that message. -/
def handleErrorsStep (s : Session) (e : String) : Session :=
  { s with status := SessionStatus.error, errorMessage := e }

/- ### Association lists: the embedding of Go maps and of the pointer heap -/

/-- Lookup in an association list (a Go map read). -/
def assocFind {α β : Type} [DecidableEq α] (k : α) : List (α × β) → Option β
  | [] => none
  | p :: rest => if p.1 = k then some p.2 else assocFind k rest

/-- Deletion from an association list (Go's `delete`). -/
def assocErase {α β : Type} [DecidableEq α] (k : α) (l : List (α × β)) : List (α × β) :=
  l.filter (fun p => decide (p.1 ≠ k))

/-- In-place update of the value stored at a key (a write through a pointer,
when the list is the heap). -/
def assocUpdate {α β : Type} [DecidableEq α] (k : α) (v : β) (l : List (α × β)) :
    List (α × β) :=
  l.map (fun p => if p.1 = k then (k, v) else p)

theorem assocFind_cons {α β : Type} [DecidableEq α] (k : α) (p : α × β) (l : List (α × β)) :
    assocFind k (p :: l) = if p.1 = k then some p.2 else assocFind k l := rfl

theorem assocFind_update_self {α β : Type} [DecidableEq α] (k : α) (v : β)
    (l : List (α × β)) (s : β) (h : assocFind k l = some s) :
    assocFind k (assocUpdate k v l) = some v := by
  induction l with
  | nil => simp [assocFind] at h
  | cons p rest ih =>
    by_cases hk : p.1 = k
    · simp [assocFind, assocUpdate, hk]
    · simp [assocFind, hk] at h
      simpa [assocFind, assocUpdate, hk] using ih h

theorem assocFind_mem_values {α β : Type} [DecidableEq α] (k : α)
    (l : List (α × β)) (v : β) (h : assocFind k l = some v) :
    v ∈ l.map (fun p => p.2) := by
  induction l with
  | nil => simp [assocFind] at h
  | cons p rest ih =>
    by_cases hk : p.1 = k
    · simp [assocFind, hk] at h
      simp [h]
    · simp [assocFind, hk] at h
      simp [ih h]

theorem assocFind_none_keys {α β : Type} [DecidableEq α] (k : α)
    (l : List (α × β)) (h : assocFind k l = none) :
    ∀ p ∈ l, p.1 ≠ k := by
  induction l with
  | nil => intro p hp; simp at hp
  | cons q rest ih =>
    intro p hp
    by_cases hk : q.1 = k
    · simp [assocFind, hk] at h
    · rcases List.mem_cons.mp hp with hpq | hprest
      · subst hpq; exact hk
      · simp [assocFind, hk] at h
        exact ih h p hprest

/- ### Pipe manager (part of the terminal package) -/

/-- The filesystem as seen by the pipe manager: the set of paths present in
the pipes directory, together with injected failure switches for the three
fallible OS calls made by CreateSessionPipes (MkdirAll, Mkfifo, and the
output-file OpenFile). -/
structure PipeFS where
  files : List String
  mkdirOk : Bool
  mkfifoOk : Bool
  createOutOk : Bool
deriving DecidableEq, Repr

/-- The input FIFO path for a session: filepath.Join(pipesDir, id + ".input"). -/
def inputPipePath (pipesDir sid : String) : String :=
  pipesDir ++ "/" ++ sid ++ ".input"

/-- The output log path for a session: filepath.Join(pipesDir, id + ".output"). -/
def outputFilePath (pipesDir sid : String) : String :=
  pipesDir ++ "/" ++ sid ++ ".output"

/-- os.Remove of one path, tolerating absence (the caller treats
"already absent" as success); the empty-path guard mirrors the source's
`if inputPipe != ""` checks in CleanupSessionPipes. -/
def removePath (fs : PipeFS) (path : String) : PipeFS :=
  if path = "" then fs
  else { fs with files := fs.files.filter (fun p => decide (p ≠ path)) }

/-- PipeManager.CleanupSessionPipes: remove the input FIFO, then the output
file, each tolerating absence. -/
def cleanupSessionPipes (fs : PipeFS) (inp outp : String) : PipeFS :=
  removePath (removePath fs inp) outp

/-- PipeManager.CreateSessionPipes: ensure the pipes directory, create the
input FIFO (Mkfifo fails when the path exists), then create/truncate the
output file; if the output file cannot be created the already-created FIFO
is removed before returning the error. -/
def createSessionPipes (pipesDir : String) (fs : PipeFS) (sid : String) :
    PipeFS × Except String (String × String) :=
  if !fs.mkdirOk then
    (fs, Except.error "failed to create pipes directory")
  else
    let inp := inputPipePath pipesDir sid
    let outp := outputFilePath pipesDir sid
    if !fs.mkfifoOk || inp ∈ fs.files then
      (fs, Except.error "failed to create input FIFO pipe")
    else
      let fs1 : PipeFS := { fs with files := inp :: fs.files }
      if !fs.createOutOk then
        -- clean up input pipe if output file creation fails
        ({ fs1 with files := fs1.files.filter (fun p => decide (p ≠ inp)) },
         Except.error "failed to create output file")
      else
        let fs2 : PipeFS :=
          if outp ∈ fs1.files then fs1 else { fs1 with files := outp :: fs1.files }
        (fs2, Except.ok (inp, outp))

/- ### Session manager (internal/terminal/session.go) -/

/-- The heap address of a session record; `*types.Session` pointers are
addresses into the manager's heap. -/
abbrev Addr := Nat

/-- The manager's state: the session registry and runner map (Go maps keyed
by session id; the registry stores pointers), the heap of session records,
the pipe-manager filesystem, the background-sweep stop channel's closed flag,
and the sync.Once flag guarding Shutdown.  A runner is represented by its
stopped flag. -/
structure ManagerState where
  sessions : List (String × Addr)
  sessionRunners : List (String × Bool)
  heap : List (Addr × Session)
  pipesDir : String
  fs : PipeFS
  stopChanClosed : Bool
  shutdownDone : Bool
deriving DecidableEq, Repr

/-- Manager.ListSessions: a freshly allocated slice holding the registry's
session pointers. -/
def listSessions (m : ManagerState) : List Addr :=
  m.sessions.map (fun p => p.2)

/-- Manager.GetSession: the registry's pointer for the id, or an error. -/
def getSession (m : ManagerState) (sid : String) : Except String Addr :=
  match assocFind sid m.sessions with
  | none => Except.error ("session not found: " ++ sid)
  | some a => Except.ok a

/-- Manager.cleanupSession: stop and drop the runner, have the cleanup
manager close the handles and remove the session's pipes, then mark the
record stopped with nil handles.  The registry entry itself is only removed
30 seconds later by a separate goroutine (the grace window), so it stays
here.  The error message is not cleared by the source. -/
def cleanupSession (m : ManagerState) (sid : String) : ManagerState :=
  match assocFind sid m.sessions with
  | none => m   -- unreachable: every caller has checked the registry
  | some a =>
    let base := { m with sessionRunners := assocErase sid m.sessionRunners }
    match assocFind a base.heap with
    | none => base   -- unreachable: registry pointers are always allocated
    | some s =>
      { base with
          fs := cleanupSessionPipes base.fs s.inputPipe s.outputFile,
          heap := assocUpdate a
            { s with status := SessionStatus.stopped, pty := none, process := none }
            base.heap }

/-- Manager.cleanupSessionImmediate: as cleanupSession but the registry entry
is deleted at once (no grace delay), used during shutdown. -/
def cleanupSessionImmediate (m : ManagerState) (sid : String) : ManagerState :=
  match assocFind sid m.sessions with
  | none => m   -- unreachable: iteration only visits registered ids
  | some a =>
    let base := { m with
        sessionRunners := assocErase sid m.sessionRunners,
        sessions := assocErase sid m.sessions }
    match assocFind a base.heap with
    | none => base   -- unreachable: registry pointers are always allocated
    | some s =>
      { base with
          fs := cleanupSessionPipes base.fs s.inputPipe s.outputFile,
          heap := assocUpdate a
            { s with status := SessionStatus.stopped, pty := none, process := none }
            base.heap }

/-- Manager.TerminateSession: reject unknown sessions and sessions that
CanTerminate refuses (anything not starting/running), leaving the state
untouched; otherwise mark stopping and run cleanupSession. -/
def terminateSession (m : ManagerState) (sid : String) :
    ManagerState × Except String Unit :=
  match assocFind sid m.sessions with
  | none => (m, Except.error ("session not found: " ++ sid))
  | some a =>
    match assocFind a m.heap with
    | none => (m, Except.error ("session not found: " ++ sid)) -- unreachable
    | some s =>
      if s.canTerminate then
        let m1 := { m with
          heap := assocUpdate a { s with status := SessionStatus.stopping } m.heap }
        (cleanupSession m1 sid, Except.ok ())
      else
        (m, Except.error
          ("session cannot be terminated in current state: " ++ statusString s.status))

/-- A session create request, from internal/types/session.go. -/
structure SessionCreateRequest where
  shell : String
  command : List String
  workingDir : String
  env : List (String × String)
deriving DecidableEq, Repr

/-- Manager.CreateSession.  The fresh uuid, the spawned PTY/process handles
and the new record's heap address arrive as parameters; `ptyOk` injects the
outcome of CreatePTY.  Pipe-allocation failure aborts before any spawn;
a spawn failure cleans the pipes up again; on success the record is
registered and its runner started (Runner.Start sets the status to running;
for a fresh runner it cannot fail). -/
def createSession (m : ManagerState) (sid : String) (req : SessionCreateRequest)
    (ptyOk : Bool) (ptyHandle procHandle : Nat) (newAddr : Addr) :
    ManagerState × Except String Addr :=
  let pipes := createSessionPipes m.pipesDir m.fs sid
  match pipes.2 with
  | Except.error e =>
    ({ m with fs := pipes.1 }, Except.error ("failed to create session pipes: " ++ e))
  | Except.ok (inp, outp) =>
    if !ptyOk then
      -- clean up pipes if PTY creation fails
      ({ m with fs := cleanupSessionPipes pipes.1 inp outp },
       Except.error "failed to create PTY")
    else
      let sess : Session :=
        { id := sid, status := SessionStatus.running, shell := req.shell,
          command := req.command, workingDir := req.workingDir,
          inputPipe := inp, outputFile := outp,
          pty := some ptyHandle, process := some procHandle, errorMessage := "" }
      ({ m with
          fs := pipes.1,
          heap := (newAddr, sess) :: m.heap,
          sessions := (sid, newAddr) :: m.sessions,
          sessionRunners := (sid, false) :: m.sessionRunners },
       Except.ok newAddr)

/-- Manager.Shutdown.  Guarded by sync.Once (`shutdownDone`); inside the
once-body the stop channel is closed (a second close would panic, surfaced
as an `Except.error`), every session is cleaned up immediately, and the
orphan sweep empties the pipes directory. -/
def managerShutdown (m : ManagerState) : Except String ManagerState :=
  if m.shutdownDone then Except.ok m
  else if m.stopChanClosed then Except.error "close of closed channel"
  else
    let m1 := { m with shutdownDone := true, stopChanClosed := true }
    let m2 := (m1.sessions.map (fun p => p.1)).foldl cleanupSessionImmediate m1
    Except.ok { m2 with fs := { m2.fs with files := [] } }

/- ### WebSocket messages (internal/types) -/

/-- A WebSocket wire message.  MessageType is a string type in the source, so
`type` is a plain string here; the wall-clock Timestamp field is omitted
(no claim depends on it). -/
structure WebSocketMessage where
  type : String
  data : String := ""
  sessionID : String := ""
  rows : Int := 0
  cols : Int := 0
  status : String := ""
  error : String := ""
deriving DecidableEq, Repr

/-- NewOutputMessage from the types package. -/
def NewOutputMessage (sessionID data : String) : WebSocketMessage :=
  { type := "output", sessionID := sessionID, data := data }

/-- NewStatusMessage from the types package. -/
def NewStatusMessage (sessionID status : String) : WebSocketMessage :=
  { type := "status", sessionID := sessionID, status := status }

/-- WebSocketMessage.IsValid: the type must be one of the recognized set. -/
def WebSocketMessage.isValid (m : WebSocketMessage) : Bool :=
  m.type == "input" || m.type == "resize" || m.type == "ping" ||
  m.type == "output" || m.type == "status" || m.type == "error" ||
  m.type == "pong" || m.type == "connected"

/- ### WebSocket hub (internal/websocket/hub.go) -/

/-- SessionInput: an input payload routed to a session. -/
structure SessionInput where
  sessionID : String
  data : String
deriving DecidableEq, Repr

/-- SessionResize: a resize request routed to a session; Rows and Cols are
uint16 on the hub side, held as Nat < 65536. -/
structure SessionResize where
  sessionID : String
  rows : Nat
  cols : Nat
deriving DecidableEq, Repr

/-- Go's conversion of an int to uint16: the low 16 bits of the two's
complement representation. -/
def uint16OfInt (x : Int) : Nat := (x % 65536).toNat

/-- Client.handleResizeMessage (the read pump's dispatch target): forward
the client's resize to the hub's resize channel, converting rows/cols to
uint16, with no validation. -/
def handleResizeMessage (clientSessionID : String) (message : WebSocketMessage) :
    SessionResize :=
  { sessionID := clientSessionID,
    rows := uint16OfInt message.rows,
    cols := uint16OfInt message.cols }

/-- The observable effect of Hub.handleSessionResize: nothing when the
session is unknown or its PTY is gone, otherwise a SetPTYSize call on the
live PTY handle with the requested dimensions. -/
inductive ResizeEffect
  | none
  | setPTYSize (pty : Nat) (rows cols : Nat)
deriving DecidableEq, Repr

/-- Hub.handleSessionResize: look the session up; if it has a live PTY,
call terminal.SetPTYSize with the request's rows and cols. -/
def handleSessionResize (sess : Option Session) (resize : SessionResize) :
    ResizeEffect :=
  match sess with
  | Option.none => ResizeEffect.none
  | Option.some s =>
    match s.pty with
    | Option.none => ResizeEffect.none
    | Option.some p => ResizeEffect.setPTYSize p resize.rows resize.cols

/-- MessageHandler.handleResize: reject non-positive dimensions with an
error before anything is sent towards the PTY; otherwise push the converted
request into the hub's resize channel (an error if that channel is full).
The Except.ok value is the resize event actually emitted. -/
def mhHandleResize (clientSessionID : String) (message : WebSocketMessage)
    (resizeChanFull : Bool) : Except String SessionResize :=
  if message.rows ≤ 0 ∨ message.cols ≤ 0 then
    Except.error "invalid resize dimensions"
  else if resizeChanFull then
    Except.error "session resize channel is full"
  else
    Except.ok { sessionID := clientSessionID,
                rows := uint16OfInt message.rows,
                cols := uint16OfInt message.cols }

/-- MessageHandler.handleInput: an empty data payload is silently dropped
(success, nothing emitted); otherwise the input is pushed into the hub's
input channel (an error when that channel is full).  The Except.ok value is
the input event emitted, if any. -/
def mhHandleInput (message : WebSocketMessage) (inputChanFull : Bool) :
    Except String (Option SessionInput) :=
  if message.data = "" then Except.ok none
  else if inputChanFull then Except.error "session input channel is full"
  else Except.ok (some { sessionID := message.sessionID, data := message.data })

/-- Client.SendMessage: a select between sending on the client's unbuffered
send channel and a default branch that closes the channel.  `closed` is the
channel's current closed state and `receiverReady` says whether the write
pump is blocked receiving; in Go, a send case on a closed channel is always
ready and panics when chosen. -/
inductive SendEffect
  | delivered (msg : WebSocketMessage)
  | channelClosed
  | panicked
deriving DecidableEq, Repr

def clientSendMessage (closed : Bool) (receiverReady : Bool)
    (msg : WebSocketMessage) : Bool × SendEffect :=
  if closed then (true, SendEffect.panicked)
  else if receiverReady then (false, SendEffect.delivered msg)
  else (true, SendEffect.channelClosed)

/-- OutputWatcher per-session state: the watched session and the last-read
offset into its output log. -/
structure OutputWatcher where
  sessionID : String
  lastPosition : Nat
deriving DecidableEq, Repr

/-- Hub.broadcast: send the message to every client currently registered for
the session (the emitted SendMessage calls, as client id / message pairs). -/
def broadcast (clients : List (String × List Nat)) (sessionID : String)
    (message : WebSocketMessage) : List (Nat × WebSocketMessage) :=
  match assocFind sessionID clients with
  | none => []
  | some cs => cs.map (fun c => (c, message))

/-- OutputWatcher.checkForOutput: stat the output file (`none` = it does not
exist yet, which is no error); when the size has not grown past lastPosition
do nothing; otherwise read exactly the bytes between lastPosition and the
current size, broadcast them as one output message to the session's
registered clients, and advance lastPosition to the current size. -/
def checkForOutput (content : Option (List Char)) (ow : OutputWatcher)
    (clients : List (String × List Nat)) :
    OutputWatcher × List (Nat × WebSocketMessage) :=
  match content with
  | Option.none => (ow, [])
  | Option.some text =>
    let currentSize := text.length
    if currentSize ≤ ow.lastPosition then (ow, [])
    else
      let buffer := (text.drop ow.lastPosition).take (currentSize - ow.lastPosition)
      if buffer.length > 0 then
        ({ ow with lastPosition := currentSize },
         broadcast clients ow.sessionID
           (NewOutputMessage ow.sessionID (String.mk buffer)))
      else (ow, [])

/-- The hub's state for shutdown purposes: clients per session (as the ids
of their send channels), output watchers (as the ids of their stop
channels), cached input-pipe writers (as file-descriptor ids), the set of
already-closed resource ids, and the hub stop channel's closed flag. -/
structure HubState where
  clients : List (String × List Nat)
  outputWatchers : List (String × Nat)
  inputWriters : List (String × Nat)
  closedRes : List Nat
  stopChanClosed : Bool
deriving DecidableEq, Repr

/-- Closing one channel or file handle; closing an already-closed one is a
Go panic. -/
def closeRes (h : HubState) (r : Nat) : Except String HubState :=
  if r ∈ h.closedRes then Except.error "close of closed channel"
  else Except.ok { h with closedRes := r :: h.closedRes }

/-- Close a list of resources in order. -/
def closeAll (h : HubState) (rs : List Nat) : Except String HubState :=
  rs.foldlM closeRes h

/-- Hub.shutdown: stop every output watcher, close every client, close every
cached input writer, then reset the three maps to fresh empty maps so a
second invocation cannot double-close anything. -/
def hubShutdownInternal (h : HubState) : Except String HubState := do
  let h1 ← closeAll h (h.outputWatchers.map (fun p => p.2))
  let h2 ← closeAll h1 ((h1.clients.map (fun p => p.2)).flatten)
  let h3 ← closeAll h2 (h2.inputWriters.map (fun p => p.2))
  Except.ok { h3 with clients := [], outputWatchers := [], inputWriters := [] }

/-- Hub.Stop: run shutdown, then close the hub's stop channel
(unconditionally — a second Stop reaches a second close). -/
def hubStop (h : HubState) : Except String HubState := do
  let h1 ← hubShutdownInternal h
  if h1.stopChanClosed then Except.error "close of closed channel"
  else Except.ok { h1 with stopChanClosed := true }

/- ### Session runner retry envelope (enhanced runner) -/

/-- The outcome of one run of a pump body: clean end (EOF or stop signal)
or a non-terminal error. -/
inductive PumpResult
  | ok
  | err (msg : String)
deriving DecidableEq, Repr

/-- How a retry-wrapped pump ends. -/
inductive RetryOutcome
  | cleanExit
  | fatal (msg : String)
deriving DecidableEq, Repr

/-- The retry wrapper shared by bridgePTYOutputToFileWithRetry and
bridgeInputPipeToPTYWithRetry: while retryCount < maxRetries, run the pump;
on an error increment retryCount, and if still under the cap sleep
retryCount seconds and retry, otherwise push a fatal error onto the error
channel and stop.  `results` lists the outcomes of the successive pump runs;
the returned list holds the back-off delays (in seconds) actually slept,
and the outcome is what the wrapper ends with.  `label` names the pump in
the fatal message, as the source's fmt.Errorf does. -/
def bridgeWithRetry (label : String) (maxRetries : Nat) :
    Nat → List PumpResult → List Nat × RetryOutcome
  | _, [] => ([], RetryOutcome.cleanExit)
  | retryCount, r :: rest =>
    if retryCount < maxRetries then
      match r with
      | PumpResult.ok => ([], RetryOutcome.cleanExit)
      | PumpResult.err e =>
        let rc := retryCount + 1
        if rc < maxRetries then
          let next := bridgeWithRetry label maxRetries rc rest
          (rc :: next.1, next.2)
        else
          ([], RetryOutcome.fatal
            (label ++ " failed after " ++ toString maxRetries ++ " retries: " ++ e))
    else ([], RetryOutcome.cleanExit)

/- ### Sample values used by counterexamples and witnesses -/

/-- A healthy running session with live PTY and process handles. -/
def runningSession : Session :=
  { id := "sess-1", status := SessionStatus.running, shell := "/bin/bash",
    command := [], workingDir := "/root",
    inputPipe := "/tmp/webterm-pipes/sess-1.input",
    outputFile := "/tmp/webterm-pipes/sess-1.output",
    pty := some 7, process := some 9, errorMessage := "" }

/-- A stopped session with both handles already nil. -/
def stoppedSession : Session :=
  { id := "sess-1", status := SessionStatus.stopped, shell := "/bin/bash",
    command := [], workingDir := "/root",
    inputPipe := "/tmp/webterm-pipes/sess-1.input",
    outputFile := "/tmp/webterm-pipes/sess-1.output",
    pty := none, process := none, errorMessage := "" }

/-- A pipe filesystem with every OS call succeeding and no stale files. -/
def cleanFS : PipeFS := { files := [], mkdirOk := true, mkfifoOk := true, createOutOk := true }

/-- A manager holding one stopped session. -/
def managerStopped : ManagerState :=
  { sessions := [("sess-1", 0)], sessionRunners := [],
    heap := [(0, stoppedSession)], pipesDir := "/tmp/webterm-pipes",
    fs := cleanFS, stopChanClosed := false, shutdownDone := false }

/-- A manager holding one running session. -/
def managerRunning : ManagerState :=
  { sessions := [("sess-1", 0)], sessionRunners := [("sess-1", false)],
    heap := [(0, runningSession)], pipesDir := "/tmp/webterm-pipes",
    fs := cleanFS, stopChanClosed := false, shutdownDone := false }

/-- A resize message with zero rows and cols. -/
def zeroResizeMsg : WebSocketMessage := { type := "resize", rows := 0, cols := 0 }

/- ### Claim C1 -/

/-- Claim C1 counterexample: the process-exit monitor breaks the handle
invariant.  A running session with live handles satisfies the invariant,
but after SessionRunner.monitorProcess records a clean process exit the
status is `stopped` while the PTY and process handles are still non-null —
so the invariant does not hold after the process-exit monitor, contrary to
the claim. -/
theorem monitor_breaks_handle_invariant :
    sessionInvariant runningSession ∧
    ¬ sessionInvariant (monitorProcessUpdate none runningSession) := by
  constructor
  · decide
  · decide

/-- Claim C1 (amended): the invariant does hold after the operations that
null the handles — after a successful CreateSession the newly registered
record satisfies it, and after an accepted TerminateSession the session's
record satisfies it.  (The process-exit monitor, by the counterexample,
does not preserve it.) -/
theorem invariant_after_create_and_terminate
    (m : ManagerState) (sid : String) (req : SessionCreateRequest)
    (ptyHandle procHandle : Nat) (newAddr : Addr) (inp outp : String)
    (hpipes : (createSessionPipes m.pipesDir m.fs sid).2 = Except.ok (inp, outp))
    (m' : ManagerState) (sid' : String) (a : Addr) (s : Session)
    (h1 : assocFind sid' m'.sessions = some a)
    (h2 : assocFind a m'.heap = some s)
    (hinv : sessionInvariant s)
    (hact : s.canTerminate = true) :
    (∃ newSess : Session,
        assocFind newAddr (createSession m sid req true ptyHandle procHandle newAddr).1.heap
          = some newSess ∧ sessionInvariant newSess) ∧
    ((terminateSession m' sid').2 = Except.ok () ∧
      assocFind a (terminateSession m' sid').1.heap
        = some { s with status := SessionStatus.stopped, pty := none, process := none } ∧
      sessionInvariant
        { s with status := SessionStatus.stopped, pty := none, process := none }) := by
  have herr : s.errorMessage = "" := by
    simp [sessionInvariant, sessionInvariantCheck] at hinv
    simp [Session.canTerminate] at hact
    rcases hinv.2 with he | he
    · exact he
    · rcases hact with h | h <;> rw [h] at he <;> simp at he
  constructor
  · -- creation
    refine ⟨{ id := sid, status := SessionStatus.running, shell := req.shell,
              command := req.command, workingDir := req.workingDir,
              inputPipe := inp, outputFile := outp,
              pty := some ptyHandle, process := some procHandle, errorMessage := "" },
            ?_, ?_⟩
    · simp only [createSession]
      rw [hpipes]
      simp [assocFind]
    · rfl
  · -- termination
    have hstep :
        terminateSession m' sid' =
          (cleanupSession
            { m' with heap := assocUpdate a { s with status := SessionStatus.stopping } m'.heap }
            sid', Except.ok ()) := by
      simp only [terminateSession, h1, h2]
      rw [if_pos hact]
    have hheap1 :
        assocFind a (assocUpdate a { s with status := SessionStatus.stopping } m'.heap)
          = some { s with status := SessionStatus.stopping } :=
      assocFind_update_self a _ m'.heap s h2
    have hclean :
        assocFind a (cleanupSession
          { m' with heap := assocUpdate a { s with status := SessionStatus.stopping } m'.heap }
          sid').heap
        = some { s with status := SessionStatus.stopped, pty := none, process := none } := by
      unfold cleanupSession
      simp only [h1, hheap1]
      exact assocFind_update_self a _ _ _ hheap1
    refine ⟨by rw [hstep], ?_, ?_⟩
    · rw [hstep]
      exact hclean
    · unfold sessionInvariant sessionInvariantCheck
      simp [herr]

/-- Claim C1 amended witness: the amended invariant statement applied to a
concrete creation in an empty manager and a concrete termination of a
running session. -/
def emptyManager : ManagerState :=
  { sessions := [], sessionRunners := [], heap := [],
    pipesDir := "/tmp/webterm-pipes", fs := cleanFS,
    stopChanClosed := false, shutdownDone := false }

def basicRequest : SessionCreateRequest :=
  { shell := "", command := [], workingDir := "", env := [] }

theorem invariant_after_create_and_terminate_witness :
    (∃ newSess : Session,
        assocFind 0 (createSession emptyManager "sess-9" basicRequest true 11 12 0).1.heap
          = some newSess ∧ sessionInvariant newSess) ∧
    ((terminateSession managerRunning "sess-1").2 = Except.ok () ∧
      assocFind 0 (terminateSession managerRunning "sess-1").1.heap
        = some { runningSession with
                  status := SessionStatus.stopped, pty := none, process := none } ∧
      sessionInvariant
        { runningSession with
            status := SessionStatus.stopped, pty := none, process := none }) :=
  invariant_after_create_and_terminate emptyManager "sess-9" basicRequest 11 12 0
    "/tmp/webterm-pipes/sess-9.input" "/tmp/webterm-pipes/sess-9.output" rfl
    managerRunning "sess-1" 0 runningSession rfl rfl rfl rfl

/- ### Claim C2 -/

/-- Claim C2: TerminateSession on a session that is not starting/running
(CanTerminate refuses) returns an error synchronously and leaves the whole
manager state — the session's record, its handles, and the registry —
exactly as it was. -/
theorem terminate_rejected_inactive
    (m : ManagerState) (sid : String) (a : Addr) (s : Session)
    (h1 : assocFind sid m.sessions = some a)
    (h2 : assocFind a m.heap = some s)
    (h3 : s.canTerminate = false) :
    terminateSession m sid =
      (m, Except.error
        ("session cannot be terminated in current state: " ++ statusString s.status)) := by
  simp only [terminateSession, h1, h2]
  rw [if_neg (by simp [h3])]

/-- Claim C2 witness: terminating a concrete stopped session is rejected and
the manager is returned unchanged. -/
theorem terminate_rejected_inactive_witness :
    terminateSession managerStopped "sess-1" =
      (managerStopped,
       Except.error "session cannot be terminated in current state: stopped") :=
  terminate_rejected_inactive managerStopped "sess-1" 0 stoppedSession rfl rfl rfl

/- ### Claim C3 -/

theorem filter_ne_of_not_mem {α : Type} [DecidableEq α] (l : List α) (x : α)
    (h : x ∉ l) : l.filter (fun p => decide (p ≠ x)) = l := by
  induction l with
  | nil => rfl
  | cons a rest ih =>
    have hax : a ≠ x := fun hc => h (hc ▸ List.mem_cons_self a rest)
    have hrest : x ∉ rest := fun hc => h (List.mem_cons_of_mem a hc)
    rw [List.filter_cons, if_pos (by simp [hax]), ih hrest]

theorem filter_not_eq_of_not_mem {α : Type} [DecidableEq α] (l : List α) (x : α)
    (h : x ∉ l) : l.filter (fun p => !decide (p = x)) = l := by
  have hfun : (fun p : α => !decide (p = x)) = (fun p => decide (p ≠ x)) := by
    funext p
    simp [decide_not]
  rw [hfun]
  exact filter_ne_of_not_mem l x h

theorem input_ne_output (d s : String) : inputPipePath d s ≠ outputFilePath d s := by
  intro h
  have hl := congrArg String.length h
  have h1 : ".input".length = 6 := rfl
  have h2 : ".output".length = 7 := rfl
  simp only [inputPipePath, outputFilePath, String.length_append, h1, h2] at hl
  omega

theorem inputPipePath_ne_empty (d s : String) : inputPipePath d s ≠ "" := by
  intro h
  have hl := congrArg String.length h
  have h1 : ".input".length = 6 := rfl
  have h0 : ("" : String).length = 0 := rfl
  simp only [inputPipePath, String.length_append, h1, h0] at hl
  omega

theorem outputFilePath_ne_empty (d s : String) : outputFilePath d s ≠ "" := by
  intro h
  have hl := congrArg String.length h
  have h2 : ".output".length = 7 := rfl
  have h0 : ("" : String).length = 0 := rfl
  simp only [outputFilePath, String.length_append, h2, h0] at hl
  omega

theorem createSessionPipes_ok (pipesDir : String) (fs : PipeFS) (sid : String)
    (hmk : fs.mkdirOk = true) (hfifo : fs.mkfifoOk = true)
    (hout : fs.createOutOk = true)
    (hnin : inputPipePath pipesDir sid ∉ fs.files)
    (hnout2 : outputFilePath pipesDir sid ∉ inputPipePath pipesDir sid :: fs.files) :
    createSessionPipes pipesDir fs sid
      = ({ fs with files := outputFilePath pipesDir sid ::
              inputPipePath pipesDir sid :: fs.files },
         Except.ok (inputPipePath pipesDir sid, outputFilePath pipesDir sid)) := by
  obtain ⟨files, mk, fi, co⟩ := fs
  simp only at hmk hfifo hout hnin hnout2
  subst hmk
  subst hfifo
  subst hout
  simp only [createSessionPipes]
  simp [hnin, hnout2]

theorem cleanup_restores (pipesDir sid : String) (fs : PipeFS)
    (hnin : inputPipePath pipesDir sid ∉ fs.files)
    (hnout : outputFilePath pipesDir sid ∉ fs.files) :
    cleanupSessionPipes
      { fs with files := outputFilePath pipesDir sid ::
          inputPipePath pipesDir sid :: fs.files }
      (inputPipePath pipesDir sid) (outputFilePath pipesDir sid) = fs := by
  obtain ⟨files, mk, fi, co⟩ := fs
  simp only at hnin hnout
  unfold cleanupSessionPipes removePath
  rw [if_neg (inputPipePath_ne_empty pipesDir sid)]
  have hf1 :
      (outputFilePath pipesDir sid :: inputPipePath pipesDir sid :: files).filter
          (fun p => decide (p ≠ inputPipePath pipesDir sid))
        = outputFilePath pipesDir sid :: files := by
    rw [List.filter_cons, List.filter_cons]
    rw [if_pos (by simp [Ne.symm (input_ne_output pipesDir sid)]),
        if_neg (by simp)]
    rw [filter_ne_of_not_mem files _ hnin]
  have hf2 :
      (outputFilePath pipesDir sid :: files).filter
          (fun p => decide (p ≠ outputFilePath pipesDir sid)) = files := by
    rw [List.filter_cons, if_neg (by simp)]
    rw [filter_ne_of_not_mem files _ hnout]
  simp only [hf1]
  rw [if_neg (outputFilePath_ne_empty pipesDir sid)]
  simp only [hf2]

/-- Claim C3: resource allocation is all-or-nothing.  First: when creating
the output file fails, CreateSessionPipes removes the input FIFO it already
created and returns an error with the filesystem exactly as before (no path
retained).  Second: when the PTY/process spawn fails, CreateSession cleans
both pipe paths up again and returns an error with the manager exactly as
before — registry, runner map, heap and filesystem untouched. -/
theorem resource_allocation_all_or_nothing :
    (∀ (pipesDir : String) (fs : PipeFS) (sid : String),
       fs.mkdirOk = true → fs.mkfifoOk = true → fs.createOutOk = false →
       inputPipePath pipesDir sid ∉ fs.files →
       createSessionPipes pipesDir fs sid
         = (fs, Except.error "failed to create output file")) ∧
    (∀ (m : ManagerState) (sid : String) (req : SessionCreateRequest)
       (ptyHandle procHandle : Nat) (newAddr : Addr),
       m.fs.mkdirOk = true → m.fs.mkfifoOk = true → m.fs.createOutOk = true →
       inputPipePath m.pipesDir sid ∉ m.fs.files →
       outputFilePath m.pipesDir sid ∉ m.fs.files →
       createSession m sid req false ptyHandle procHandle newAddr
         = (m, Except.error "failed to create PTY")) := by
  constructor
  · intro pipesDir fs sid hmk hfifo hout hnin
    obtain ⟨files, mk, fi, co⟩ := fs
    simp only at hmk hfifo hout hnin
    subst hmk
    subst hfifo
    subst hout
    simp only [createSessionPipes]
    simp [hnin]
    intro a ha hax
    exact hnin (hax ▸ ha)
  · intro m sid req ptyHandle procHandle newAddr hmk hfifo hout hnin hnout
    have hnotin2 : outputFilePath m.pipesDir sid ∉
        inputPipePath m.pipesDir sid :: m.fs.files := by
      intro hc
      rcases List.mem_cons.mp hc with hc | hc
      · exact input_ne_output m.pipesDir sid hc.symm
      · exact hnout hc
    have hpipes := createSessionPipes_ok m.pipesDir m.fs sid hmk hfifo hout hnin hnotin2
    have hclean := cleanup_restores m.pipesDir sid m.fs hnin hnout
    simp only [createSession]
    rw [hpipes]
    simp [hclean]

/-- Claim C3 witness: a concrete failing output-file creation rolls the FIFO
back, and a concrete failing PTY spawn leaves the manager unchanged. -/
def failingOutFS : PipeFS :=
  { files := [], mkdirOk := true, mkfifoOk := true, createOutOk := false }

theorem resource_allocation_all_or_nothing_witness :
    createSessionPipes "/tmp/webterm-pipes" failingOutFS "sess-3"
      = (failingOutFS, Except.error "failed to create output file") ∧
    createSession managerRunning "sess-4" basicRequest false 21 22 5
      = (managerRunning, Except.error "failed to create PTY") :=
  ⟨resource_allocation_all_or_nothing.1 "/tmp/webterm-pipes" failingOutFS "sess-3"
      rfl rfl rfl (by decide),
   resource_allocation_all_or_nothing.2 managerRunning "sess-4" basicRequest 21 22 5
      rfl rfl rfl (by decide) (by decide)⟩

/- ### Claim C4 -/

/-- Claim C4: each pump's retry envelope is bounded.  With the source's cap
of 3, three consecutive pump errors produce back-off delays of 1 then 2
seconds (the delay is retryCount seconds, scaling with the retry count), the
wrapper then stops retrying — no element of `rest` is ever consulted — and
emits a fatal error built from the last pump error; the error-aggregation
task turns exactly that message into status `error` on the session. -/
theorem pump_retry_envelope (label e1 e2 e3 : String) (rest : List PumpResult)
    (s : Session) :
    bridgeWithRetry label 3 0
        (PumpResult.err e1 :: PumpResult.err e2 :: PumpResult.err e3 :: rest)
      = ([1, 2], RetryOutcome.fatal
          (label ++ " failed after " ++ toString 3 ++ " retries: " ++ e3)) ∧
    handleErrorsStep s (label ++ " failed after " ++ toString 3 ++ " retries: " ++ e3)
      = { s with status := SessionStatus.error,
                 errorMessage :=
                   label ++ " failed after " ++ toString 3 ++ " retries: " ++ e3 } := by
  exact ⟨by simp [bridgeWithRetry], rfl⟩

/- ### Claim C5 -/

/-- Claim C5: one OutputWatcher poll.  When the output file has not grown
past the last-read offset nothing is broadcast and the watcher state is
untouched (a zero-byte delta is a no-op, not an error); when it has grown,
exactly the bytes between the offset and the current size are broadcast as
one output message to every client registered for the session, and the
stored offset advances by exactly the number of bytes broadcast. -/
theorem output_watcher_delta_broadcast (text : List Char) (ow : OutputWatcher)
    (clients : List (String × List Nat)) :
    (text.length ≤ ow.lastPosition →
      checkForOutput (some text) ow clients = (ow, [])) ∧
    (ow.lastPosition < text.length →
      checkForOutput (some text) ow clients =
        ({ sessionID := ow.sessionID, lastPosition := text.length },
         broadcast clients ow.sessionID
           (NewOutputMessage ow.sessionID (String.mk (text.drop ow.lastPosition)))) ∧
      ow.lastPosition + (text.drop ow.lastPosition).length = text.length) := by
  constructor
  · intro h
    simp [checkForOutput, if_pos h]
  · intro h
    have hlen : (text.drop ow.lastPosition).length = text.length - ow.lastPosition :=
      List.length_drop ow.lastPosition text
    have htake : (text.drop ow.lastPosition).take (text.length - ow.lastPosition)
        = text.drop ow.lastPosition := by
      apply List.take_of_length_le
      omega
    constructor
    · simp only [checkForOutput]
      rw [if_neg (by omega), htake]
      rw [if_pos (by omega)]
    · omega

/-- Claim C5 witness: a concrete poll where the file grew from offset 1 to
size 2 broadcasts the one-byte delta to both registered clients, and a
concrete poll where the size equals the offset is a no-op. -/
theorem output_watcher_delta_broadcast_witness :
    (checkForOutput (some ['h', 'i']) { sessionID := "s1", lastPosition := 1 }
        [("s1", [1, 2])] =
      ({ sessionID := "s1", lastPosition := 2 },
       broadcast [("s1", [1, 2])] "s1"
         (NewOutputMessage "s1" (String.mk (['h', 'i'].drop 1)))) ∧
     1 + (['h', 'i'].drop 1).length = 2) ∧
    checkForOutput (some ['h']) { sessionID := "s1", lastPosition := 1 }
        [("s1", [1, 2])] =
      ({ sessionID := "s1", lastPosition := 1 }, []) :=
  ⟨(output_watcher_delta_broadcast ['h', 'i'] { sessionID := "s1", lastPosition := 1 }
      [("s1", [1, 2])]).2 (by decide),
   (output_watcher_delta_broadcast ['h'] { sessionID := "s1", lastPosition := 1 }
      [("s1", [1, 2])]).1 (by decide)⟩

/- ### Claim C6 -/

/-- Claim C6 counterexample: the live read-pump path does not validate
resize dimensions.  A resize message with rows = 0 and cols = 0 dispatched
through Client.handleResizeMessage and Hub.handleSessionResize reaches
SetPTYSize on the session's live PTY with dimensions (0, 0) — so
non-positive dimensions are not rejected on every handling path, contrary
to the claim. -/
theorem resize_unvalidated_reaches_pty :
    zeroResizeMsg.rows ≤ 0 ∧ zeroResizeMsg.cols ≤ 0 ∧
    handleSessionResize (some runningSession)
        (handleResizeMessage "sess-1" zeroResizeMsg)
      = ResizeEffect.setPTYSize 7 0 0 := by
  refine ⟨by decide, by decide, rfl⟩

/-- Claim C6 (amended): only MessageHandler.handleResize rejects
non-positive dimensions before anything reaches the PTY; the Client
read-pump path forwards them unvalidated (after a uint16 conversion), as
the counterexample shows.  Here: every resize message with rows ≤ 0 or
cols ≤ 0 handled by MessageHandler.handleResize is rejected with an error
and emits no resize event. -/
theorem message_handler_rejects_nonpositive_resize
    (clientSessionID : String) (message : WebSocketMessage) (resizeChanFull : Bool)
    (h : message.rows ≤ 0 ∨ message.cols ≤ 0) :
    mhHandleResize clientSessionID message resizeChanFull
      = Except.error "invalid resize dimensions" := by
  unfold mhHandleResize
  rw [if_pos h]

/-- Claim C6 amended witness: the zero-dimension resize message is rejected
by MessageHandler.handleResize. -/
theorem message_handler_rejects_nonpositive_resize_witness :
    mhHandleResize "sess-1" zeroResizeMsg false
      = Except.error "invalid resize dimensions" :=
  message_handler_rejects_nonpositive_resize "sess-1" zeroResizeMsg false
    (Or.inl (by decide))

/- ### Claim C8 -/

/-- The running session after a mutation made through a pointer taken from
the ListSessions result. -/
def mutatedSession : Session :=
  { runningSession with status := SessionStatus.error, errorMessage := "mutated" }

/-- Claim C8 counterexample: ListSessions returns live pointers, not record
copies.  The registry maps "sess-1" to address 0; address 0 is in the list
ListSessions returns; writing a mutated record through that listed pointer
makes the registry's stored session — read through the very pointer
GetSession returns — the mutated record, no longer the original.  So
mutating a session obtained from the returned list does change the session
stored in the registry, contrary to the claim. -/
theorem list_sessions_live_reference :
    getSession managerRunning "sess-1" = Except.ok 0 ∧
    (0 : Addr) ∈ listSessions managerRunning ∧
    assocFind 0 managerRunning.heap = some runningSession ∧
    assocFind 0 (assocUpdate 0 mutatedSession managerRunning.heap)
      = some mutatedSession ∧
    mutatedSession ≠ runningSession := by
  refine ⟨rfl, by decide, rfl, rfl, by decide⟩

/-- Claim C8 (amended): ListSessions returns a freshly allocated slice of
live pointers.  The slice snapshots the registry's membership — it is a
pure value unaffected by later registry or heap mutation — but its elements
are the registry's own pointers: every registered record's address is in
the list, and a write through such an address is visible at the same
address the registry holds. -/
theorem list_sessions_snapshot_of_pointers (m : ManagerState) (sid : String)
    (a : Addr) (s v : Session)
    (h1 : assocFind sid m.sessions = some a)
    (h2 : assocFind a m.heap = some s) :
    a ∈ listSessions m ∧
    getSession m sid = Except.ok a ∧
    assocFind a (assocUpdate a v m.heap) = some v ∧
    listSessions { m with heap := assocUpdate a v m.heap } = listSessions m := by
  refine ⟨?_, ?_, ?_, rfl⟩
  · exact assocFind_mem_values sid m.sessions a h1
  · simp [getSession, h1]
  · exact assocFind_update_self a v m.heap s h2

/-- Claim C8 amended witness: the snapshot-of-pointers properties at the
concrete one-session manager. -/
theorem list_sessions_snapshot_of_pointers_witness :
    (0 : Addr) ∈ listSessions managerRunning ∧
    getSession managerRunning "sess-1" = Except.ok 0 ∧
    assocFind 0 (assocUpdate 0 stoppedSession managerRunning.heap)
      = some stoppedSession ∧
    listSessions
        { managerRunning with heap := assocUpdate 0 stoppedSession managerRunning.heap }
      = listSessions managerRunning :=
  list_sessions_snapshot_of_pointers managerRunning "sess-1" 0 runningSession
    stoppedSession rfl rfl

/- ### Claim C7 -/

/-- All closable resource ids a hub shutdown touches, in the order the
source closes them: watcher stop channels, client send channels, cached
input-writer handles. -/
def hubResourceIds (h : HubState) : List Nat :=
  h.outputWatchers.map (fun p => p.2) ++ (h.clients.map (fun p => p.2)).flatten ++
  h.inputWriters.map (fun p => p.2)

/-- A hub with no clients, watchers or writers and its stop channel open. -/
def idleHub : HubState :=
  { clients := [], outputWatchers := [], inputWriters := [],
    closedRes := [], stopChanClosed := false }

theorem except_ok_bind {α β : Type} (x : α) (f : α → Except String β) :
    ((Except.ok x : Except String α) >>= f) = f x := rfl

theorem closeAll_ok (rs : List Nat) (h : HubState) (hnd : rs.Nodup)
    (hdisj : ∀ r ∈ rs, r ∉ h.closedRes) :
    closeAll h rs = Except.ok { h with closedRes := rs.reverse ++ h.closedRes } := by
  induction rs generalizing h with
  | nil =>
    rfl
  | cons r rest ih =>
    have hr : r ∉ h.closedRes := hdisj r (List.mem_cons_self r rest)
    have hne : ∀ x ∈ rest, x ≠ r := by
      intro x hx hxr
      exact (List.nodup_cons.mp hnd).1 (hxr ▸ hx)
    have hstep : closeRes h r = Except.ok { h with closedRes := r :: h.closedRes } := by
      simp [closeRes, hr]
    have hrec := ih { h with closedRes := r :: h.closedRes }
      (List.nodup_cons.mp hnd).2
      (by
        intro x hx
        simp only [List.mem_cons]
        push_neg
        exact ⟨hne x hx, hdisj x (List.mem_cons_of_mem r hx)⟩)
    have happ : rest.reverse ++ r :: h.closedRes
        = (r :: rest).reverse ++ h.closedRes := by
      simp
    simp only [closeAll, List.foldlM_cons, hstep, except_ok_bind]
    rw [show rest.foldlM closeRes { h with closedRes := r :: h.closedRes }
        = closeAll { h with closedRes := r :: h.closedRes } rest from rfl]
    rw [hrec, ← happ]

theorem cleanupImmediate_cases (m : ManagerState) (k : String) :
    (assocFind k m.sessions = none ∧ cleanupSessionImmediate m k = m) ∨
    ((cleanupSessionImmediate m k).sessions = assocErase k m.sessions ∧
     (cleanupSessionImmediate m k).sessionRunners = assocErase k m.sessionRunners ∧
     (cleanupSessionImmediate m k).shutdownDone = m.shutdownDone) := by
  cases h1 : assocFind k m.sessions with
  | none =>
    left
    exact ⟨rfl, by simp only [cleanupSessionImmediate, h1]⟩
  | some a =>
    right
    cases h2 : assocFind a m.heap with
    | none =>
      refine ⟨?_, ?_, ?_⟩ <;> simp only [cleanupSessionImmediate, h1, h2]
    | some s =>
      refine ⟨?_, ?_, ?_⟩ <;> simp only [cleanupSessionImmediate, h1, h2]

theorem shutdownFold_empties (ks : List String) (m : ManagerState)
    (hs : ∀ p ∈ m.sessions, p.1 ∈ ks)
    (hr : ∀ p ∈ m.sessionRunners, p.1 ∈ m.sessions.map (fun q => q.1)) :
    (ks.foldl cleanupSessionImmediate m).sessions = [] ∧
    (ks.foldl cleanupSessionImmediate m).sessionRunners = [] ∧
    (ks.foldl cleanupSessionImmediate m).shutdownDone = m.shutdownDone := by
  induction ks generalizing m with
  | nil =>
    have hsn : m.sessions = [] := by
      cases hms : m.sessions with
      | nil => rfl
      | cons p rest =>
        have hmem := hs p (by rw [hms]; exact List.mem_cons_self p rest)
        exact absurd hmem (List.not_mem_nil p.1)
    have hrn : m.sessionRunners = [] := by
      cases hmr : m.sessionRunners with
      | nil => rfl
      | cons p rest =>
        have hmem := hr p (by rw [hmr]; exact List.mem_cons_self p rest)
        rw [hsn] at hmem
        exact absurd hmem (List.not_mem_nil p.1)
    exact ⟨hsn, hrn, rfl⟩
  | cons k ks ih =>
    rw [List.foldl_cons]
    rcases cleanupImmediate_cases m k with ⟨hnone, heq⟩ | ⟨hse, hre, hsh⟩
    · rw [heq]
      apply ih m
      · intro p hp
        have hk := assocFind_none_keys k m.sessions hnone p hp
        rcases List.mem_cons.mp (hs p hp) with hmem | hmem
        · exact absurd hmem hk
        · exact hmem
      · exact hr
    · have ihres := ih (cleanupSessionImmediate m k)
        (by
          intro p hp
          rw [hse] at hp
          have hfm := List.mem_filter.mp hp
          have hpk : p.1 ≠ k := of_decide_eq_true hfm.2
          rcases List.mem_cons.mp (hs p hfm.1) with hmem | hmem
          · exact absurd hmem hpk
          · exact hmem)
        (by
          intro p hp
          rw [hre] at hp
          have hfm := List.mem_filter.mp hp
          have hpk : p.1 ≠ k := of_decide_eq_true hfm.2
          have hmem := hr p hfm.1
          rcases List.mem_map.mp hmem with ⟨q, hq, hq1⟩
          rw [hse]
          refine List.mem_map.mpr ⟨q, ?_, hq1⟩
          refine List.mem_filter.mpr ⟨hq, ?_⟩
          rw [hq1]
          exact decide_eq_true hpk)
      refine ⟨ihres.1, ihres.2.1, ?_⟩
      rw [ihres.2.2, hsh]

/-- Claim C7 counterexample: Hub.Stop is not idempotent.  The first Stop on
a quiescent hub succeeds (resetting every map), but a second Stop reaches
`close(h.stopChan)` on the already-closed stop channel, which panics in Go
— so invoking shutdown twice does produce a double-close, contrary to the
claim. -/
theorem hub_stop_twice_panics :
    hubStop idleHub = Except.ok { idleHub with stopChanClosed := true } ∧
    hubStop { idleHub with stopChanClosed := true }
      = Except.error "close of closed channel" :=
  ⟨rfl, rfl⟩

/-- Claim C7 (amended): Manager.Shutdown is idempotent — guarded by
sync.Once, a first call closes the stop channel once, empties the session
registry and the runner map, and sweeps the pipes directory, and a second
call is a no-op with no panic.  The hub's internal shutdown closes every
watcher stop channel, client send channel and cached input writer exactly
once, resets all three maps, and is itself safe to run again; but Hub.Stop
as a whole is not idempotent (see the counterexample): only its first
invocation succeeds, leaving all maps empty. -/
theorem shutdown_idempotent_amended :
    (∀ m : ManagerState,
       m.shutdownDone = false → m.stopChanClosed = false →
       (∀ p ∈ m.sessionRunners, p.1 ∈ m.sessions.map (fun q => q.1)) →
       ∃ m2, managerShutdown m = Except.ok m2 ∧
         m2.sessions = [] ∧ m2.sessionRunners = [] ∧
         m2.fs.files = [] ∧ managerShutdown m2 = Except.ok m2) ∧
    (∀ h : HubState,
       (hubResourceIds h).Nodup →
       (∀ r ∈ hubResourceIds h, r ∉ h.closedRes) →
       h.stopChanClosed = false →
       ∃ h1, hubStop h = Except.ok h1 ∧
         h1.clients = [] ∧ h1.outputWatchers = [] ∧ h1.inputWriters = [] ∧
         h1.stopChanClosed = true ∧ hubShutdownInternal h1 = Except.ok h1) := by
  constructor
  · intro m hsd hsc hr
    have hfold := shutdownFold_empties (m.sessions.map (fun p => p.1))
      { m with shutdownDone := true, stopChanClosed := true }
      (fun p hp => List.mem_map.mpr ⟨p, hp, rfl⟩) hr
    refine ⟨{ ((m.sessions.map (fun p => p.1)).foldl cleanupSessionImmediate
        { m with shutdownDone := true, stopChanClosed := true }) with
        fs := { ((m.sessions.map (fun p => p.1)).foldl cleanupSessionImmediate
          { m with shutdownDone := true, stopChanClosed := true }).fs with
          files := [] } },
      ?_, hfold.1, hfold.2.1, rfl, ?_⟩
    · simp only [managerShutdown, hsd, hsc]
      rfl
    · have hdone : ((m.sessions.map (fun p => p.1)).foldl cleanupSessionImmediate
          { m with shutdownDone := true, stopChanClosed := true }).shutdownDone
          = true := hfold.2.2
      simp only [managerShutdown, hdone]
      rw [if_pos trivial]
  · intro h hnd hdisj hsc
    have hA := (List.nodup_append.mp ((List.nodup_append.mp hnd).1)).1
    have hB := (List.nodup_append.mp ((List.nodup_append.mp hnd).1)).2.1
    have hC := (List.nodup_append.mp hnd).2.1
    have hdAB := (List.nodup_append.mp ((List.nodup_append.mp hnd).1)).2.2
    have hdABC := (List.nodup_append.mp hnd).2.2
    have hinA : ∀ r ∈ h.outputWatchers.map (fun p => p.2), r ∉ h.closedRes := by
      intro r hra
      exact hdisj r (List.mem_append_left _ (List.mem_append_left _ hra))
    have hinB : ∀ r ∈ (h.clients.map (fun p => p.2)).flatten, r ∉ h.closedRes := by
      intro r hrb
      exact hdisj r (List.mem_append_left _ (List.mem_append_right _ hrb))
    have hinC : ∀ r ∈ h.inputWriters.map (fun p => p.2), r ∉ h.closedRes := by
      intro r hrc
      exact hdisj r (List.mem_append_right _ hrc)
    have hstep1 := closeAll_ok (h.outputWatchers.map (fun p => p.2)) h hA hinA
    have hstep2 := closeAll_ok ((h.clients.map (fun p => p.2)).flatten)
      { h with closedRes := (h.outputWatchers.map (fun p => p.2)).reverse ++ h.closedRes }
      hB
      (by
        intro x hx
        simp only [List.mem_append, List.mem_reverse]
        push_neg
        exact ⟨fun hxa => hdAB hxa hx, hinB x hx⟩)
    have hstep3 := closeAll_ok (h.inputWriters.map (fun p => p.2))
      { h with closedRes :=
          ((h.clients.map (fun p => p.2)).flatten).reverse ++
          ((h.outputWatchers.map (fun p => p.2)).reverse ++ h.closedRes) }
      hC
      (by
        intro x hx
        have hxnab : x ∉ h.outputWatchers.map (fun p => p.2) ++
            (h.clients.map (fun p => p.2)).flatten := by
          intro hxab
          exact hdABC hxab hx
        simp only [List.mem_append] at hxnab
        push_neg at hxnab
        simp only [List.mem_append, List.mem_reverse]
        push_neg
        exact ⟨hxnab.2, hxnab.1, hinC x hx⟩)
    have hinternal : hubShutdownInternal h = Except.ok
        { h with
            closedRes :=
              (h.inputWriters.map (fun p => p.2)).reverse ++
              (((h.clients.map (fun p => p.2)).flatten).reverse ++
               ((h.outputWatchers.map (fun p => p.2)).reverse ++ h.closedRes)),
            clients := [], outputWatchers := [], inputWriters := [] } := by
      simp only [hubShutdownInternal]
      rw [hstep1]
      simp only [except_ok_bind]
      rw [hstep2]
      simp only [except_ok_bind]
      rw [hstep3]
      simp only [except_ok_bind]
    refine ⟨{ h with
        closedRes :=
          (h.inputWriters.map (fun p => p.2)).reverse ++
          (((h.clients.map (fun p => p.2)).flatten).reverse ++
           ((h.outputWatchers.map (fun p => p.2)).reverse ++ h.closedRes)),
        clients := [], outputWatchers := [], inputWriters := [],
        stopChanClosed := true },
      ?_, rfl, rfl, rfl, rfl, ?_⟩
    · simp only [hubStop, hinternal, hsc]
      rfl
    · simp [hubShutdownInternal, closeAll]

/-- A hub with one session carrying two clients, one watcher and one cached
input writer, all resources open and distinct. -/
def sampleHub : HubState :=
  { clients := [("sess-1", [1, 2])], outputWatchers := [("sess-1", 3)],
    inputWriters := [("sess-1", 4)], closedRes := [], stopChanClosed := false }

/-- Claim C7 amended witness: double Manager.Shutdown on a concrete manager
and a first Hub.Stop on a concrete populated hub. -/
theorem shutdown_idempotent_amended_witness :
    (∃ m2, managerShutdown managerRunning = Except.ok m2 ∧
      m2.sessions = [] ∧ m2.sessionRunners = [] ∧
      m2.fs.files = [] ∧ managerShutdown m2 = Except.ok m2) ∧
    (∃ h1, hubStop sampleHub = Except.ok h1 ∧
      h1.clients = [] ∧ h1.outputWatchers = [] ∧ h1.inputWriters = [] ∧
      h1.stopChanClosed = true ∧ hubShutdownInternal h1 = Except.ok h1) :=
  ⟨shutdown_idempotent_amended.1 managerRunning rfl rfl (by decide),
   shutdown_idempotent_amended.2 sampleHub (by decide) (by decide) rfl⟩

/-- Claim C9 counterexample: SendMessage on a client whose send channel is
already closed panics rather than delivering or closing.  The closed state
is reachable by SendMessage itself: a first call with no ready receiver
takes the default branch and closes the channel while the client stays
registered, and the next broadcast's SendMessage to the same client hits
the closed channel — in Go a select send case on a closed channel proceeds
and panics.  So "every call either delivers or closes the channel" is
false. -/
theorem send_message_on_closed_channel_panics :
    clientSendMessage false false (NewOutputMessage "sess-1" "a")
      = (true, SendEffect.channelClosed) ∧
    clientSendMessage
        (clientSendMessage false false (NewOutputMessage "sess-1" "a")).1 true
        (NewOutputMessage "sess-1" "b")
      = (true, SendEffect.panicked) :=
  ⟨rfl, rfl⟩

/-- Claim C9 (amended): on a channel that is not yet closed, SendMessage
never blocks: it delivers the message when a receiver is ready on the
unbuffered channel, and otherwise closes the client's channel
(disconnecting the unresponsive client) instead of blocking the
broadcaster. -/
theorem send_message_nonblocking_on_open_channel
    (receiverReady : Bool) (msg : WebSocketMessage) :
    clientSendMessage false receiverReady msg =
      (if receiverReady then (false, SendEffect.delivered msg)
       else (true, SendEffect.channelClosed)) := by
  cases receiverReady <;> rfl

/- ### Claim C10 -/

/-- Claim C10: an input message whose data payload is the empty string is
silently discarded by MessageHandler.handleInput — the handler returns
success, emits nothing towards the session's input channel (hence nothing
is written to the input FIFO), and sends no error, whatever the rest of the
message or the state of the input channel. -/
theorem empty_input_discarded (t sid st er : String) (rows cols : Int)
    (inputChanFull : Bool) :
    mhHandleInput
        { type := t, data := "", sessionID := sid, rows := rows, cols := cols,
          status := st, error := er } inputChanFull
      = Except.ok none := by
  simp [mhHandleInput]
